import Mathlib

/-!
Verification of the av1-go transcoding daemon against its specification.

The Go sources are shallowly embedded: pure functions become Lean functions,
filesystem and subprocess effects become explicit effect traces and oracle
inputs, machine integers become `Int`, and `float64` score arithmetic is
modelled exactly over `ℚ` (every weight in the source is a multiple of 0.5,
so the idealization is exact for the accumulated score).
-/

namespace AV1

/-! ## Path helpers (Go `path/filepath` on slash-separated paths)

Media paths in this system are plain absolute slash paths without trailing
slashes, which is the fragment of `filepath` semantics exercised by the code.
-/

/-- Character-level split on a separator, structurally recursive. -/
def splitChars (sep : Char) : List Char → List (List Char)
  | [] => [[]]
  | c :: rest =>
      let r := splitChars sep rest
      if c == sep then [] :: r
      else match r with
        | [] => [[c]]
        | h :: t => (c :: h) :: t

/-- Slash-join of path components. -/
def joinWithSlash : List (List Char) → List Char
  | [] => []
  | [x] => x
  | x :: xs => x ++ '/' :: joinWithSlash xs

/-- Go `filepath.Base`: the last slash-separated element of the path. -/
def pathBase (p : String) : String :=
  match (splitChars '/' p.toList).getLast? with
  | some s => String.mk s
  | none => p

/-- Go `filepath.Dir`: everything before the final element, `"."` if none. -/
def pathDir (p : String) : String :=
  let parts := splitChars '/' p.toList
  if parts.length ≤ 1 then "." else String.mk (joinWithSlash parts.dropLast)

/-- Go `filepath.Ext`: the suffix of the final element starting at its last
dot, including the dot; empty if the final element has no dot. -/
def pathExt (p : String) : String :=
  let base := pathBase p
  let cs := base.toList
  if cs.contains '.' then
    String.mk ('.' :: (cs.reverse.takeWhile (fun c => c ≠ '.')).reverse)
  else ""

/-- Go `strings.TrimSuffix(p, filepath.Ext(p))`: the path without its
extension (the extension is always a literal suffix of the path). -/
def trimExt (p : String) : String :=
  String.mk (p.toList.take (p.toList.length - (pathExt p).toList.length))

/-- Go `filepath.Join(dir, name)` for the shapes produced by `pathDir`. -/
def pathJoin (dir name : String) : String :=
  if dir = "." then name else dir ++ "/" ++ name

/-- Pattern is a prefix of the character list. -/
def isPrefixChars : List Char → List Char → Bool
  | [], _ => true
  | _ :: _, [] => false
  | p :: ps, c :: cs => p == c && isPrefixChars ps cs

/-- Pattern occurs somewhere in the character list. -/
def charsContain (s pat : List Char) : Bool :=
  match s with
  | [] => pat.isEmpty
  | _ :: rest => isPrefixChars pat s || charsContain rest pat

/-- Go `strings.Contains`. -/
def containsStr (s pat : String) : Bool := charsContain s.toList pat.toList

/-- ASCII lowercasing, Go `strings.ToLower` on the ASCII names and tokens
this system compares. -/
def toLowerStr (s : String) : String := String.mk (s.toList.map Char.toLower)

/-! ## Job data model (`internal/jobs/jobs.go`, metadata fields from
`cmd/av1d/main.go`) -/

/-- JobStatus values from `internal/jobs/jobs.go`. -/
inductive JobStatus
  | pending
  | running
  | success
  | failed
  | skipped
deriving DecidableEq, Repr

/-- JSON string value of a status, as in the Go constants. -/
def JobStatus.str : JobStatus → String
  | .pending => "pending"
  | .running => "running"
  | .success => "success"
  | .failed => "failed"
  | .skipped => "skipped"

/-- Terminal statuses: Success, Failed, Skipped. -/
def JobStatus.isTerminal : JobStatus → Bool
  | .success => true
  | .failed => true
  | .skipped => true
  | _ => false

/-- Job record. Fields are those of the `Job` struct in
`internal/jobs/jobs.go` together with the metadata fields the scanner in
`cmd/av1d/main.go` populates (`SourceCodec`, `Resolution`, `BitDepth`,
`FrameRate`, `AudioStreams`, `SubStreams`, `Container`, `EstimatedSize`).
`time.Time` values are modelled by an abstract `Nat` clock. -/
structure Job where
  id : String
  sourcePath : String
  outputPath : String
  createdAt : Nat
  startedAt : Option Nat
  finishedAt : Option Nat
  status : JobStatus
  reason : String
  originalSize : Int
  newSize : Int
  isWebRipLike : Bool
  sourceCodec : String
  resolution : String
  bitDepth : Int
  frameRate : String
  audioStreams : Int
  subStreams : Int
  container : String
  estimatedSize : Int
deriving DecidableEq, Repr

/-- Go `jobs.NewJob`: fresh job with generated ID, `CreatedAt` now, status
Pending; all other fields at their zero values. The generated UUID and the
clock are inputs of the model. -/
def newJob (freshId : String) (sourcePath : String) (now : Nat) : Job :=
  { id := freshId
    sourcePath := sourcePath
    outputPath := ""
    createdAt := now
    startedAt := none
    finishedAt := none
    status := .pending
    reason := ""
    originalSize := 0
    newSize := 0
    isWebRipLike := false
    sourceCodec := ""
    resolution := ""
    bitDepth := 0
    frameRate := ""
    audioStreams := 0
    subStreams := 0
    container := ""
    estimatedSize := 0 }

/-- Go `jobs.FindJobBySourcePath`: first job whose source path matches. -/
def findJobBySourcePath (jobsList : List Job) (sourcePath : String) : Option Job :=
  jobsList.find? (fun j => j.sourcePath == sourcePath)

/-! ## Job store (`internal/jobs/jobs.go`) -/

/-- Filesystem operations performed by the store and the scanner/executor,
recorded as an effect trace. -/
inductive FsOp
  | mkdirAll (dir : String)
  | writeFile (path : String) (contents : String)
  | renameFile (src : String) (dst : String)
  | removeFile (path : String)
deriving DecidableEq, Repr

/-- True exactly for rename operations. -/
def FsOp.isRenameOp : FsOp → Bool
  | .renameFile _ _ => true
  | _ => false

/-- Destination path of a write operation. -/
def FsOp.writePath? : FsOp → Option String
  | .writeFile p _ => some p
  | _ => none

/-- JSON rendering of one marshalled field line. -/
def jsonField (key val : String) : String := "  \x22" ++ key ++ "\x22: " ++ val

/-- JSON string literal (escaping of special characters inside values is not
exercised by the fields the system writes). -/
def jsonStr (s : String) : String := "\x22" ++ s ++ "\x22"

/-- Go `json.MarshalIndent(job, "", "  ")` on the `Job` struct of
`internal/jobs/jobs.go`: the object fields in struct order, with the
`omitempty` fields omitted at their zero values. `time.Time` rendering is
abstracted to the numeric clock value. -/
def marshalJob (job : Job) : String :=
  let fields : List (Option String) :=
    [ some (jsonField "id" (jsonStr job.id))
    , some (jsonField "source_path" (jsonStr job.sourcePath))
    , if job.outputPath = "" then none else
        some (jsonField "output_path" (jsonStr job.outputPath))
    , some (jsonField "created_at" (jsonStr (toString job.createdAt)))
    , match job.startedAt with
      | none => none
      | some t => some (jsonField "started_at" (jsonStr (toString t)))
    , match job.finishedAt with
      | none => none
      | some t => some (jsonField "finished_at" (jsonStr (toString t)))
    , some (jsonField "status" (jsonStr job.status.str))
    , if job.reason = "" then none else some (jsonField "reason" (jsonStr job.reason))
    , if job.originalSize = 0 then none else
        some (jsonField "original_bytes" (toString job.originalSize))
    , if job.newSize = 0 then none else
        some (jsonField "new_bytes" (toString job.newSize))
    , some (jsonField "is_webrip_like" (if job.isWebRipLike then "true" else "false")) ]
  "\x7b\n" ++ String.intercalate ",\n" (fields.filterMap id) ++ "\n\x7d"

/-- Go `jobs.SaveJob`: ensure the jobs directory exists, then write the
marshalled record directly to `<jobsDir>/<job_id>.json` with a single
`os.WriteFile`. The trace records exactly the filesystem operations the
function performs. -/
def saveJobEffects (job : Job) (jobsDir : String) : List FsOp :=
  [ .mkdirAll jobsDir
  , .writeFile (jobsDir ++ "/" ++ job.id ++ ".json") (marshalJob job) ]

/-! ## Probe data model (`internal/metadata/probe.go`) -/

/-- Stream record parsed from the prober output, fields of `StreamInfo`.
`BitDepth` is stored as the normalized integer the `FlexibleInt` parser
produces; maps are association lists (`Disposition`, `Tags`). -/
structure StreamInfo where
  index : Int
  codecName : String
  codecType : String
  width : Int
  height : Int
  avgFrameRate : String
  rFrameRate : String
  bitDepth : Int
  bitRate : String
  disposition : Option (List (String × Int))
  tags : List (String × String)
deriving DecidableEq, Repr

/-- Format block parsed from the prober output, fields of `FormatInfo`.
`tags = none` models a nil Go map (the classifier branches on it). -/
structure FormatInfo where
  formatName : String
  duration : String
  size : String
  bitRate : String
  tags : Option (List (String × String))
deriving DecidableEq, Repr

/-- ProbeResult: parsed format and streams plus the derived flags and the
selected main video stream computed in `ProbeFile`. -/
structure ProbeResult where
  format : FormatInfo
  streams : List StreamInfo
  hasVideo : Bool
  hasAV1 : Bool
  isWebRipLike : Bool
  videoStream : Option StreamInfo
deriving DecidableEq, Repr

/-- Go map lookup that yields the zero value `""` for a missing key. -/
def lookupTag (tags : List (String × String)) (key : String) : String :=
  match tags.find? (fun kv => kv.1 == key) with
  | some kv => kv.2
  | none => ""

/-- Go map lookup that yields the zero value `0` for a missing key. -/
def lookupInt (m : List (String × Int)) (key : String) : Int :=
  match m.find? (fun kv => kv.1 == key) with
  | some kv => kv.2
  | none => 0

/-! ## Flexible numeric parsing (`FlexibleInt.UnmarshalJSON`) -/

/-- JSON values as delivered by the prober for a single field. -/
inductive JVal
  | jnull
  | jnum (n : Int)
  | jstr (s : String)
  | jbool (b : Bool)
deriving DecidableEq, Repr

/-- Go `strconv.Atoi`: optional sign followed by at least one decimal digit,
nothing else. -/
def atoi (s : String) : Option Int :=
  let core (ds : List Char) (sign : Int) : Option Int :=
    if ds = [] then none
    else if ds.all (fun c => c.isDigit) then
      some (sign * (ds.foldl (fun acc c => acc * 10 + (c.toNat - '0'.toNat)) 0 : Nat))
    else none
  match s.toList with
  | '-' :: rest => core rest (-1)
  | '+' :: rest => core rest 1
  | cs => core cs 1

/-- Go `FlexibleInt.UnmarshalJSON`: null becomes 0; a JSON number is taken
directly; a string is accepted when empty (0) or when `strconv.Atoi`
parses it; everything else is an error. -/
def flexibleIntUnmarshal : JVal → Except String Int
  | .jnull => .ok 0
  | .jnum n => .ok n
  | .jstr s =>
      if s = "" then .ok 0
      else match atoi s with
        | some n => .ok n
        | none => .error ("invalid FlexibleInt value \x22" ++ s ++ "\x22")
  | .jbool _ => .error "invalid FlexibleInt JSON"

/-- Go `encoding/json` decoding of a JSON value into a plain `int` struct
field: a number is taken directly, null leaves the field at its zero value,
and any other shape (including a numeric string) is an unmarshalling error. -/
def goIntUnmarshal : JVal → Except String Int
  | .jnum n => .ok n
  | .jnull => .ok 0
  | _ => .error "json: cannot unmarshal value into Go struct field of type int"

/-- Raw numeric fields of one stream object as they appear in the prober
JSON; `none` is an absent field. -/
structure RawStream where
  index : Option JVal
  width : Option JVal
  height : Option JVal
  bitsPerRawSample : Option JVal
deriving DecidableEq, Repr

/-- Decoding of an absent field: the struct field keeps its zero value. -/
def decodeField (dec : JVal → Except String Int) : Option JVal → Except String Int
  | none => .ok 0
  | some v => dec v

/-- Decoded numeric fields of a stream record. -/
structure StreamNums where
  index : Int
  width : Int
  height : Int
  bitDepth : Int
deriving DecidableEq, Repr

/-- Decoding of the numeric fields of a `StreamInfo` per its struct tags:
`index`, `width` and `height` are plain Go `int` fields, while
`bits_per_raw_sample` is a `FlexibleInt`. Any field error makes the whole
`json.Unmarshal` in `ProbeFile` fail. -/
def parseStreamNums (raw : RawStream) : Except String StreamNums := do
  let i ← decodeField goIntUnmarshal raw.index
  let w ← decodeField goIntUnmarshal raw.width
  let h ← decodeField goIntUnmarshal raw.height
  let b ← decodeField flexibleIntUnmarshal raw.bitsPerRawSample
  return { index := i, width := w, height := h, bitDepth := b }

/-- True exactly when the decode succeeded. -/
def exceptOk {ε α : Type} : Except ε α → Bool
  | .ok _ => true
  | .error _ => false

/-! ## Source classifier (`ClassifyWebSource` in `internal/metadata/probe.go`)

Score arithmetic runs over `ℚ`; every weight in the source is a multiple of
0.5, so `float64` addition of the weights is exact and the `ℚ` model agrees
with it. -/

/-- SourceClass constants, in the Go `iota` order. -/
inductive SourceClass
  | unknown
  | discLike
  | webLike
deriving DecidableEq, Repr

/-- Classification decision: final class, cumulative score, ordered reasons. -/
structure WebSourceDecision where
  class' : SourceClass
  score : ℚ
  reasons : List String
deriving DecidableEq, Repr

/-- Go `WebSourceDecision.IsWebLike`: Unknown is coerced to web-like. -/
def WebSourceDecision.isWebLike (d : WebSourceDecision) : Bool :=
  d.class' == .webLike || d.class' == .unknown

/-- Digit-string value. -/
def digitsVal (ds : List Char) : Nat :=
  ds.foldl (fun a c => a * 10 + (c.toNat - '0'.toNat)) 0

/-- Go `strconv.ParseFloat` on the plain decimal forms the prober emits
(optional sign, digits, optional fractional part); exponent and special
forms are not exercised by the prober's `bit_rate` field. -/
def parseDecimal (s : String) : Option ℚ :=
  let core (cs : List Char) (sign : ℚ) : Option ℚ :=
    match (String.mk cs).splitOn "." with
    | [ip] =>
        if ip ≠ "" && ip.toList.all Char.isDigit then
          some (sign * (digitsVal ip.toList : ℚ))
        else none
    | [ip, fp] =>
        if (ip ≠ "" || fp ≠ "") && ip.toList.all Char.isDigit
            && fp.toList.all Char.isDigit then
          some (sign * ((digitsVal ip.toList : ℚ)
            + (digitsVal fp.toList : ℚ) / (10 : ℚ) ^ fp.length))
        else none
    | _ => none
  match s.toList with
  | '-' :: r => core r (-1)
  | '+' :: r => core r 1
  | r => core r 1

/-- Left-pad a numeral with zeros to the given width. -/
def padZeros (width : Nat) (s : String) : String :=
  if s.length < width then String.mk (List.replicate (width - s.length) '0') ++ s
  else s

/-- Fixed-point rendering of a rational with `prec` decimals, the rational
idealization of Go `fmt` verbs `%.1f` / `%.2f` (ties rounded up). -/
def fmtFixed (prec : Nat) (q : ℚ) : String :=
  let n : Int := ⌊q * (10 : ℚ) ^ prec + 1 / 2⌋
  let sign := if n < 0 then "-" else ""
  let m := n.natAbs
  if prec = 0 then sign ++ toString m
  else sign ++ toString (m / 10 ^ prec) ++ "." ++ padZeros prec (toString (m % 10 ^ prec))

/-- Web-leaning filename/directory tokens. -/
def webTokens : List String :=
  ["web-dl", "webrip", "webhd", "webdl", "nf", "amzn", "dsnp", "hmax",
   "hulu", "atvp", "disney", "appletv"]

/-- Disc-leaning filename/directory tokens. -/
def discTokens : List String :=
  ["bluray", "bdrip", "brrip", "remux", "uhd", "bd25", "bd50", "blu-ray",
   "bd-remux", "bd remux", "bdr"]

/-- Web-leaning muxer names. -/
def webMuxers : List String :=
  ["shaka-packager", "libwebm", "applehttp", "dash", "hls", "ffmpeg"]

/-- Disc-leaning muxer names. -/
def discMuxers : List String :=
  ["mkvmerge", "libmatroska", "makemkv", "tsmuxer"]

/-- Running score and reason accumulator of `ClassifyWebSource`. -/
structure ScoreAcc where
  score : ℚ
  reasons : List String
deriving DecidableEq, Repr

/-- One fired signal: add its weight and append its reason. -/
def addSignal (acc : ScoreAcc) (delta : ℚ) (reason : String) : ScoreAcc :=
  { score := acc.score + delta, reasons := acc.reasons ++ [reason] }

/-- Token scan over a haystack: each contained token fires once. -/
def tokenScan (acc : ScoreAcc) (hay : String) (toks : List String) (delta : ℚ)
    (label : String) : ScoreAcc :=
  toks.foldl (fun a tok =>
    if containsStr hay tok then
      addSignal a delta (label ++ ": contains \x27" ++ tok ++ "\x27")
    else a) acc

/-- Muxer scan over the two tag values. -/
def muxerScan (acc : ScoreAcc) (muxingApp writingLib : String)
    (muxers : List String) (delta : ℚ) (suffix : String) : ScoreAcc :=
  muxers.foldl (fun a m =>
    if containsStr muxingApp m || containsStr writingLib m then
      addSignal a delta ("muxer: " ++ m ++ suffix)
    else a) acc

/-- Final threshold block of `ClassifyWebSource`: score ≥ +2.0 is WebLike,
score ≤ −2.0 is DiscLike, otherwise Unknown with an extra reason. -/
def finalizeDecision (acc : ScoreAcc) : WebSourceDecision :=
  if acc.score ≥ 2 then ⟨.webLike, acc.score, acc.reasons⟩
  else if acc.score ≤ -2 then ⟨.discLike, acc.score, acc.reasons⟩
  else ⟨.unknown, acc.score, acc.reasons ++ ["ambiguous: score near zero"]⟩

/-- Existence of the operator override sidecars, an input of the model
(the source consults the filesystem with `os.Stat`). -/
structure ClassifyEnv where
  websafeExists : Bool
  nowebsafeExists : Bool
deriving DecidableEq, Repr

/-- Signal accumulation of `ClassifyWebSource` (the non-override body), in
source order. -/
def classifySignals (filePath : String) (format : FormatInfo)
    (streams : List StreamInfo) : ScoreAcc :=
  let fileName := toLowerStr (pathBase filePath)
  let dirName := toLowerStr (pathDir filePath)
  let ext := toLowerStr (pathExt filePath)
  let formatName := toLowerStr format.formatName
  let acc : ScoreAcc := ⟨0, []⟩
    -- 1. filename/folder tokens
    let acc := tokenScan acc fileName webTokens 3 "filename"
    let acc := tokenScan acc fileName discTokens (-4) "filename"
    let acc := tokenScan acc dirName webTokens 1 "directory"
    let acc := tokenScan acc dirName discTokens (-2) "directory"
    -- 2. container and muxing info
    let acc :=
      if ext == ".mp4" || ext == ".mov" || ext == ".webm" then
        addSignal acc 2 ("extension: " ++ ext ++ " (web container)")
      else if ext == ".mkv" then
        addSignal acc (-1) "extension: .mkv (often disc remux)"
      else acc
    let acc :=
      if formatName == "mov,mp4,m4a,3gp,3g2,mj2" || formatName == "mp4"
          || formatName == "mov" then
        addSignal acc (5/2) ("format: " ++ formatName ++ " (web container)")
      else if formatName.startsWith "webm" && !containsStr formatName "matroska" then
        addSignal acc (5/2) ("format: " ++ formatName ++ " (web container)")
      else if containsStr formatName "matroska" then
        addSignal acc (-3/2) "format: matroska (often disc remux)"
      else acc
    let acc :=
      match format.tags with
      | none => acc
      | some tags =>
          let muxingApp := toLowerStr (lookupTag tags "muxing_app")
          let writingLib := toLowerStr (lookupTag tags "writing_library")
          let acc := muxerScan acc muxingApp writingLib webMuxers 3 " (web-leaning)"
          muxerScan acc muxingApp writingLib discMuxers (-3) " (disc-leaning)"
    -- 3. frame-rate behavior: the loop breaks at the first video stream whose
    -- two non-empty rates differ; the score moves only outside Matroska
    let acc :=
      match streams.find? (fun s => s.codecType == "video"
          && s.avgFrameRate != "" && s.rFrameRate != ""
          && s.avgFrameRate != s.rFrameRate) with
      | some s =>
          if !containsStr formatName "matroska" then
            addSignal acc (5/2) ("video: VFR detected (avg=" ++ s.avgFrameRate
              ++ ", r=" ++ s.rFrameRate ++ ")")
          else acc
      | none => acc
    -- 4. dimensions and aspect ratio, over every video stream
    let acc := streams.foldl (fun a s =>
      if s.codecType != "video" then a
      else
        let a :=
          if !containsStr formatName "matroska" then
            let a :=
              if s.width > 0 && s.width % 2 != 0 then
                addSignal a (3/2) ("video: odd width " ++ toString s.width)
              else a
            if s.height > 0 && s.height % 2 != 0 then
              addSignal a (3/2) ("video: odd height " ++ toString s.height)
            else a
          else a
        if s.width > 0 && s.height > 0 then
          let ar : ℚ := (s.width : ℚ) / (s.height : ℚ)
          if ar < 13/10 || ar > 5/2 then
            addSignal a (1/2) ("video: unusual AR " ++ fmtFixed 2 ar)
          else a
        else a) acc
    -- 5. bitrate vs resolution; the loop breaks at the first video stream
    -- with positive height
    let acc :=
      if format.bitRate != "" then
        match parseDecimal format.bitRate with
        | none => acc
        | some br =>
            match streams.find? (fun s => s.codecType == "video" && s.height > 0) with
            | none => acc
            | some s =>
                let area : ℚ := ((s.width * s.height : Int) : ℚ)
                if area > 0 then
                  let bpp := br / area
                  if bpp < 1/10 && s.height ≥ 1080 then
                    addSignal acc 1
                      ("bitrate: low for resolution (" ++ fmtFixed 2 bpp ++ " bpp)")
                  else if bpp > 3/10 && s.height ≥ 1080 then
                    addSignal acc (-1)
                      ("bitrate: high for resolution (" ++ fmtFixed 2 bpp ++ " bpp)")
                  else acc
                else
                  -- float64 division by a zero area yields +Inf (bitrate > 0),
                  -- which only the `> 0.3` comparison accepts
                  if br > 0 && s.height ≥ 1080 then
                    addSignal acc (-1) "bitrate: high for resolution (+Inf bpp)"
                  else acc
      else acc
    acc

/-- Go `ClassifyWebSource`: overrides short-circuit with score ±10, then the
signals accumulate in source order and the threshold block classifies. -/
def classifyWebSource (env : ClassifyEnv) (filePath : String)
    (format : FormatInfo) (streams : List StreamInfo) : WebSourceDecision :=
  if env.websafeExists then
    ⟨.webLike, 10, ["override: .websafe sidecar file"]⟩
  else if env.nowebsafeExists then
    ⟨.discLike, -10, ["override: .nowebsafe sidecar file"]⟩
  else
    finalizeDecision (classifySignals filePath format streams)

/-! ## Encoder argument construction (`TranscodeArgs` and helpers in
`internal/ffmpeg`, file `part_007`) -/

/-- Go `DetermineQuality`: global quality by source height. -/
def determineQuality (height : Int) : Int :=
  if height ≥ 1440 then 23
  else if height ≥ 1080 then 24
  else 25

/-- Go `determineSurfaceFormat`: `p010` for bit depth ≥ 10, else `nv12`.
The current `TranscodeArgs` never calls this helper. -/
def determineSurfaceFormat (bitDepth : Int) : String :=
  if bitDepth ≥ 10 then "p010" else "nv12"

/-- Go `joinFilterParts`: comma-join of the filter chain parts. -/
def joinFilterParts (parts : List String) : String :=
  (parts.foldl (fun (acc : String × Bool) part =>
    (acc.1 ++ (if acc.2 then "," else "") ++ part, true)) ("", false)).1

/-- Video filter chain parts built by `TranscodeArgs`: the web-rip branch
prepends a SAR-handling scale, and both branches scale to even dimensions,
download to `nv12`, set square SAR, coerce `nv12` again and hardware-upload.
The surface format is the literal `nv12` in both branches. -/
def vfParts (isWebRipLike : Bool) : List String :=
  if isWebRipLike then
    [ "scale_vaapi=w=\x27if(gt(iw,iw*sar),iw,iw*sar)\x27:h=\x27if(gt(iw,iw*sar),iw/sar,ih)\x27"
    , "scale_vaapi=w=ceil(iw/2)*2:h=ceil(ih/2)*2"
    , "hwdownload,format=nv12"
    , "setsar=1"
    , "format=nv12"
    , "hwupload" ]
  else
    [ "scale_vaapi=w=ceil(iw/2)*2:h=ceil(ih/2)*2"
    , "hwdownload,format=nv12"
    , "setsar=1"
    , "format=nv12"
    , "hwupload" ]

/-- Arguments `TranscodeArgs` emits before the video filter flag: the global
flags, the hardware-device initialization, the web-rip input flags, the
input file and the stream mapping. -/
def transcodeArgsPre (inputPath : String) (isWebRipLike : Bool)
    (videoIndex : Int) : List String :=
  [ "-hide_banner"
  , "-analyzeduration", "50M"
  , "-probesize", "50M"
  , "-init_hw_device", "vaapi=va"
  , "-hwaccel", "vaapi"
  , "-hwaccel_output_format", "vaapi"
  , "-filter_hw_device", "va" ]
  ++ (if isWebRipLike then
        ["-fflags", "+genpts", "-copyts", "-start_at_zero"]
      else [])
  ++ ["-i", inputPath]
  ++ [ "-map", "0"
     , "-map", "-0:v"
     , "-map", "-0:t"
     , "-map", "0:v:" ++ toString videoIndex
     , "-map", "0:a?"
     , "-map", "-0:a:m:language:rus"
     , "-map", "-0:a:m:language:ru"
     , "-map", "0:s?"
     , "-map", "-0:s:m:language:rus"
     , "-map", "-0:s:m:language:ru"
     , "-map_chapters", "0" ]

/-- Arguments `TranscodeArgs` emits after the video filter chain: the codec
block, the web-rip output flags, the passthrough, mux settings and the
output file. -/
def transcodeArgsPost (outputPath : String) (quality : Int)
    (isWebRipLike : Bool) : List String :=
  [ "-c:v:0", "av1_vaapi"
  , "-global_quality:v:0", toString quality
  , "-compression_level", "2" ]
  ++ (if isWebRipLike then
        ["-vsync", "0", "-avoid_negative_ts", "make_zero"]
      else [])
  ++ ["-c:a", "copy", "-c:s", "copy"]
  ++ [ "-max_muxing_queue_size", "2048"
     , "-map_metadata", "0"
     , "-f", "matroska"
     , "-movflags", "+faststart" ]
  ++ [outputPath]

/-- Go `TranscodeArgs`: the complete encoder argument list. Errors exactly
when the probe result has no selected main video stream. The `ffmpegPath`
parameter of the source never enters the argument list, and the computed
render node is unused (the code lets VAAPI auto-detect), so neither is a
model input. -/
def transcodeArgs (inputPath outputPath : String) (pr : ProbeResult)
    (isWebRipLike : Bool) : Except String (List String) :=
  match pr.videoStream with
  | none => .error "no video stream found in probe result"
  | some videoStream =>
      .ok (transcodeArgsPre inputPath isWebRipLike videoStream.index
        ++ ["-vf:v:0", joinFilterParts (vfParts isWebRipLike)]
        ++ transcodeArgsPost outputPath (determineQuality videoStream.height) isWebRipLike)

/-- Value following the `-vf:v:0` flag in an argument list. -/
def vfChainOf : List String → Option String
  | [] => none
  | [_] => none
  | a :: b :: rest => if a = "-vf:v:0" then some b else vfChainOf (b :: rest)

/-! ## Executor (`ProcessJob` in `internal/daemon`, file `part_001`) -/

/-- Go `WriteWhyFile`: sidecar path `<base>.av1qsvd-why.txt`. -/
def whyPathOf (filePath : String) : String :=
  trimExt filePath ++ ".av1qsvd-why.txt"

/-- Effects on the store and the filesystem performed by the executor, the
scanner and the drain loop. Log lines and the classification sidecar are
outside this alphabet. -/
inductive Eff
  | writeWhy (path reason : String)
  | saveRecord (job : Job)
  | writeSkip (path : String)
  | removeOut (path : String)
  | renameOver (src dst : String)
deriving DecidableEq, Repr

/-- True exactly for why-sidecar writes. -/
def Eff.isWriteWhy : Eff → Bool
  | .writeWhy _ _ => true
  | _ => false

/-- Go `CheckSizeGate`: passes exactly when `newBytes ≤ origBytes × ratio`.
The `float64` comparison of the source is modelled exactly over `ℚ`. -/
def checkSizeGate (origBytes newBytes : Int) (maxRatioQ : ℚ) : Bool :=
  decide ((newBytes : ℚ) ≤ (origBytes : ℚ) * maxRatioQ)

/-- Size-gate rejection reason: both sizes in MB and the threshold percent,
per the `fmt.Sprintf` in `ProcessJob`. -/
def sizeGateReason (newSize origSize : Int) (maxRatioQ : ℚ) : String :=
  "size gate: new " ++ fmtFixed 1 ((newSize : ℚ) / (1024 * 1024))
    ++ " MB vs orig " ++ fmtFixed 1 ((origSize : ℚ) / (1024 * 1024))
    ++ " MB (>" ++ fmtFixed 0 (maxRatioQ * 100) ++ "%)"

/-- Subset of the configuration `ProcessJob` consumes. -/
structure TranscodeConfig where
  jobStateDir : String
  maxSizeRatioQ : ℚ

/-- Oracle results of the external steps `ProcessJob` performs: the
stability check, the checked store write on the Running transition, the
encoder run (error carries exit code and distilled stderr), the stat of the
temporary output (its byte size on success), the rename over the original,
and the post-rename stat. `now` is the abstract clock. -/
structure ExecEnv where
  stable : Except String Bool
  saveRunningOk : Bool
  transcode : Except (Int × String) Unit
  outputStat : Except String Int
  replaceRes : Except String Unit
  verifyRes : Except String Unit
  now : Nat

/-- Result of one `ProcessJob` run: the job as left in memory, the ordered
effect trace, and the function's return value. -/
structure ProcResult where
  job : Job
  effects : List Eff
  result : Except String Unit

/-- Go `ProcessJob`: full executor lifecycle of one job, translated branch
by branch from `part_001`. -/
def processJob (job : Job) (pr : ProbeResult) (cfg : TranscodeConfig)
    (env : ExecEnv) : ProcResult :=
  match env.stable with
  | .error e => ⟨job, [], .error ("failed to check file stability: " ++ e)⟩
  | .ok stable =>
    if !stable then
      let reason := "file still copying"
      let job1 : Job :=
        { job with
          status := .skipped
          reason := reason
          finishedAt := some env.now }
      ⟨job1, [.writeWhy (whyPathOf job.sourcePath) reason], .ok ()⟩
    else
      let job1 : Job := { job with status := .running, startedAt := some env.now }
      let effs1 : List Eff := [.saveRecord job1]
      if !env.saveRunningOk then
        ⟨job1, effs1, .error "failed to save job status"⟩
      else
        let dir := pathDir job.sourcePath
        let baseName := pathBase job.sourcePath
        let ext := pathExt baseName
        let baseWithoutExt := baseName.dropRight ext.length
        let outputPath := pathJoin dir (baseWithoutExt ++ ".av1-tmp.mkv")
        let job2 : Job := { job1 with outputPath := outputPath }
        match transcodeArgs job.sourcePath outputPath pr job.isWebRipLike with
        | .error e =>
            let job3 : Job :=
              { job2 with
                status := .failed
                reason := "failed to build ffmpeg args: " ++ e
                finishedAt := some env.now }
            ⟨job3, effs1 ++ [.saveRecord job3],
              .error ("failed to build transcode args: " ++ e)⟩
        | .ok _args =>
            match env.transcode with
            | .error (code, msg) =>
                let reason := "ffmpeg exit code " ++ toString code ++ ": " ++ msg
                let job3 : Job :=
                  { job2 with
                    status := .failed
                    reason := reason
                    finishedAt := some env.now }
                ⟨job3,
                  effs1 ++ [.saveRecord job3,
                    .writeWhy (whyPathOf job.sourcePath) reason,
                    .removeOut outputPath],
                  .error ("transcode failed: " ++ msg)⟩
            | .ok _ =>
                match env.outputStat with
                | .error e =>
                    let job3 : Job :=
                      { job2 with
                        status := .failed
                        reason := "failed to stat output file: " ++ e
                        finishedAt := some env.now }
                    ⟨job3, effs1 ++ [.saveRecord job3, .removeOut outputPath],
                      .error ("output file not found: " ++ e)⟩
                | .ok size =>
                    let job3 : Job := { job2 with newSize := size }
                    if !checkSizeGate job3.originalSize job3.newSize cfg.maxSizeRatioQ then
                      let reason :=
                        sizeGateReason job3.newSize job3.originalSize cfg.maxSizeRatioQ
                      let job4 : Job :=
                        { job3 with
                          status := .skipped
                          reason := reason
                          finishedAt := some env.now }
                      ⟨job4,
                        effs1 ++ [.writeWhy (whyPathOf job.sourcePath) reason,
                          .writeSkip (trimExt job.sourcePath ++ ".av1qsvd-skip"),
                          .removeOut outputPath,
                          .saveRecord job4],
                        .ok ()⟩
                    else
                      match env.replaceRes with
                      | .error e =>
                          let job4 : Job :=
                            { job3 with
                              status := .failed
                              reason := "failed to replace file: " ++ e
                              finishedAt := some env.now }
                          ⟨job4, effs1 ++ [.saveRecord job4, .removeOut outputPath],
                            .error ("failed to replace file: " ++ e)⟩
                      | .ok _ =>
                          match env.verifyRes with
                          | .error e =>
                              let job4 : Job :=
                                { job3 with
                                  status := .failed
                                  reason := "replaced file verification failed: " ++ e
                                  finishedAt := some env.now }
                              ⟨job4,
                                effs1 ++ [.renameOver outputPath job.sourcePath,
                                  .saveRecord job4],
                                .error ("replaced file verification failed: " ++ e)⟩
                          | .ok _ =>
                              let job4 : Job :=
                                { job3 with
                                  status := .success
                                  finishedAt := some env.now }
                              ⟨job4,
                                effs1 ++ [.renameOver outputPath job.sourcePath,
                                  .saveRecord job4],
                                .ok ()⟩

/-! ## Drain loop and scanner admission (`cmd/av1d/main.go`) -/

/-- Drain-loop handler for a failed re-probe (`main.go` lines 310-317): the
job is marked Failed with the prober's error text and saved; no timestamp
and no sidecar are touched. -/
def drainProbeFail (job : Job) (probeErr : String) : Job × List Eff :=
  let job' : Job :=
    { job with status := .failed, reason := "ffprobe failed: " ++ probeErr }
  (job', [.saveRecord job'])

/-- Count of streams of a codec type, as in the scanner's stream loop. -/
def countStreamsOfType (streams : List StreamInfo) (t : String) : Int :=
  ((streams.filter (fun s => s.codecType == t)).length : Int)

/-- Scanner admission update (`main.go` lines 184-246): reuse the existing
job (resetting Skipped/Failed to Pending and clearing reason and
timestamps) or create a fresh one, then populate the metadata from the
probe result. `est` is the value of `estimateOutputSize`, a `float64`
computation supplied as an oracle input. -/
def admitUpdate (existing : Option Job) (freshId : String) (now : Nat)
    (path : String) (size : Int) (pr : ProbeResult) (est : Int) : Job :=
  let job : Job :=
    match existing with
    | some j =>
        if j.status = .skipped ∨ j.status = .failed then
          { j with
            status := .pending
            reason := ""
            startedAt := none
            finishedAt := none }
        else j
    | none => newJob freshId path now
  let job : Job := { job with originalSize := size, isWebRipLike := pr.isWebRipLike }
  let job : Job :=
    match pr.videoStream with
    | some vs =>
        { job with
          sourceCodec := vs.codecName
          resolution := toString vs.width ++ "x" ++ toString vs.height
          bitDepth := vs.bitDepth
          frameRate := if vs.avgFrameRate = "" then vs.rFrameRate else vs.avgFrameRate }
    | none => job
  { job with
    audioStreams := countStreamsOfType pr.streams "audio"
    subStreams := countStreamsOfType pr.streams "subtitle"
    container := pr.format.formatName
    estimatedSize := est }

/-- In-place mutation of the found job record: the scanner holds a pointer
into `existingJobs`, so updating the job updates that list's element. -/
def updateFirstBySourcePath (l : List Job) (path : String) (j' : Job) : List Job :=
  match l with
  | [] => []
  | j :: rest =>
      if j.sourcePath == path then j' :: rest
      else j :: updateFirstBySourcePath rest path j'

/-- Scanner state threaded through a pass: the jobs loaded at startup
(mutated in place through pointers) and the jobs admitted this pass. -/
structure ScanState where
  existingJobs : List Job
  newJobs : List Job
  effects : List Eff
deriving Repr

/-- Oracle inputs of one file visit: the skip-marker stat, the file size,
the probe outcome, the generated job ID, the clock, the estimate, and the
outcome of the job save. -/
structure ScanFileEnv where
  skipMarkerExists : Bool
  size : Int
  probe : Except String ProbeResult
  freshId : String
  now : Nat
  est : Int
  saveOk : Bool
deriving Repr

/-- One file visit of the scan pass (`main.go` lines 96-246): the ordered
cheap checks, then admission. A visit that admits appends the (possibly
reused) job to `newJobs`; a reused job is also updated in place inside
`existingJobs`. -/
def scanFileStep (st : ScanState) (path : String) (minBytes : Int)
    (env : ScanFileEnv) : ScanState :=
  let ext := toLowerStr (pathExt path)
  if !(ext == ".mkv" || ext == ".mp4" || ext == ".m4v") then st
  else if env.skipMarkerExists then
    { st with effects := st.effects
        ++ [.writeWhy (whyPathOf path) "marked with .av1qsvd-skip"] }
  else
    let existingJob := findJobBySourcePath st.existingJobs path
    let isDone := match existingJob with
      | some j => j.status == JobStatus.success
      | none => false
    if isDone then st
    else if env.size ≤ minBytes then
      let reason := "file < 2GB (size: " ++ toString env.size ++ " bytes, "
        ++ fmtFixed 2 ((env.size : ℚ) / (1024 * 1024 * 1024)) ++ " GB)"
      { st with effects := st.effects ++ [.writeWhy (whyPathOf path) reason] }
    else
      match env.probe with
      | .error e =>
          { st with effects := st.effects
              ++ [.writeWhy (whyPathOf path) ("ffprobe failed: " ++ e)] }
      | .ok pr =>
          if !pr.hasVideo then
            { st with effects := st.effects ++ [.writeWhy (whyPathOf path) "not a video"] }
          else if pr.hasAV1 then
            { st with effects := st.effects ++ [.writeWhy (whyPathOf path) "already av1"] }
          else
            let job := admitUpdate existingJob env.freshId env.now path env.size pr env.est
            let existingJobs' :=
              match existingJob with
              | some _ => updateFirstBySourcePath st.existingJobs path job
              | none => st.existingJobs
            if env.saveOk then
              { existingJobs := existingJobs'
                newJobs := st.newJobs ++ [job]
                effects := st.effects ++ [.saveRecord job] }
            else
              { existingJobs := existingJobs'
                newJobs := st.newJobs
                effects := st.effects ++ [.saveRecord job] }

/-- True exactly for Pending jobs. -/
def isPendingJob (j : Job) : Bool := j.status == .pending

/-- Drain-loop selection (`main.go` lines 285-296): every Pending job from
the startup load, then every Pending job admitted this pass, in list order. -/
def selectPending (existingJobs newJobs : List Job) : List Job :=
  existingJobs.filter isPendingJob ++ newJobs.filter isPendingJob

/-- Number of times a job ID occurs in a feed list. -/
def feedCount (feed : List Job) (jobId : String) : Nat :=
  (feed.filter (fun j => j.id == jobId)).length

/-! ## Sample inputs used by witnesses and counterexamples -/

/-- Sample 8-bit h264 video stream. -/
def sampleStream : StreamInfo :=
  { index := 0
    codecName := "h264"
    codecType := "video"
    width := 1920
    height := 1080
    avgFrameRate := "24/1"
    rFrameRate := "24/1"
    bitDepth := 8
    bitRate := ""
    disposition := some [("default", 1)]
    tags := [] }

/-- Sample 10-bit hevc video stream. -/
def sampleStream10 : StreamInfo := { sampleStream with codecName := "hevc", bitDepth := 10 }

/-- Sample Matroska format block. -/
def sampleFormat : FormatInfo :=
  { formatName := "matroska,webm"
    duration := "3600.0"
    size := "4294967296"
    bitRate := ""
    tags := none }

/-- Sample probe result with an 8-bit main video stream. -/
def samplePR : ProbeResult :=
  { format := sampleFormat
    streams := [sampleStream]
    hasVideo := true
    hasAV1 := false
    isWebRipLike := false
    videoStream := some sampleStream }

/-- Sample probe result with a 10-bit main video stream. -/
def samplePR10 : ProbeResult := { samplePR with
  streams := [sampleStream10]
  videoStream := some sampleStream10 }

/-- Sample probe result with no video stream. -/
def samplePRNoVideo : ProbeResult := { samplePR with
  streams := []
  hasVideo := false
  videoStream := none }

/-- Sample pending job. -/
def sampleJob : Job := { newJob "j1" "/lib/a.mkv" 1 with originalSize := 4294967296 }

/-- Sample executor environment in which every external step succeeds. -/
def sampleEnvOk : ExecEnv :=
  { stable := .ok true
    saveRunningOk := true
    transcode := .ok ()
    outputStat := .ok 1932735283
    replaceRes := .ok ()
    verifyRes := .ok ()
    now := 7 }

/-- Sample executor configuration with the default 0.90 ratio. -/
def sampleCfg : TranscodeConfig := { jobStateDir := "/var/lib/av1/jobs", maxSizeRatioQ := 9/10 }

/-! ## Theorems -/

/-- Helper: the final threshold block classifies by the score exactly at the
±2.0 boundaries, leaving the score unchanged. -/
theorem finalizeDecision_spec (acc : ScoreAcc) :
    (finalizeDecision acc).score = acc.score
    ∧ ((finalizeDecision acc).class' = SourceClass.webLike ↔ 2 ≤ acc.score)
    ∧ ((finalizeDecision acc).class' = SourceClass.discLike ↔ acc.score ≤ -2)
    ∧ ((finalizeDecision acc).class' = SourceClass.unknown
        ↔ (-2 < acc.score ∧ acc.score < 2)) := by
  unfold finalizeDecision
  split_ifs with h1 h2
  · refine ⟨rfl, iff_of_true rfl h1, iff_of_false (by simp) (by linarith),
      iff_of_false (by simp) ?_⟩
    rintro ⟨-, h4⟩
    linarith
  · refine ⟨rfl, iff_of_false (by simp) h1, iff_of_true rfl h2,
      iff_of_false (by simp) ?_⟩
    rintro ⟨h3, -⟩
    linarith
  · push_neg at h1 h2
    exact ⟨rfl, iff_of_false (by simp) (by linarith), iff_of_false (by simp) (by linarith),
      iff_of_true rfl ⟨h2, h1⟩⟩

/-- Helper: the derived boolean is true exactly for WebLike and Unknown. -/
theorem isWebLike_iff (d : WebSourceDecision) :
    d.isWebLike = true ↔ (d.class' = SourceClass.webLike ∨ d.class' = SourceClass.unknown) := by
  cases h : d.class' <;> simp [WebSourceDecision.isWebLike, h]

/-- C8: for every (path, format, streams) input, the classifier returns
WebLike exactly when the accumulated score is ≥ +2.0, DiscLike exactly when
it is ≤ −2.0, and Unknown otherwise; and the derived boolean is true iff the
class is WebLike or Unknown. -/
theorem classify_thresholds (env : ClassifyEnv) (filePath : String)
    (format : FormatInfo) (streams : List StreamInfo) :
    ((classifyWebSource env filePath format streams).class' = SourceClass.webLike
      ↔ 2 ≤ (classifyWebSource env filePath format streams).score)
    ∧ ((classifyWebSource env filePath format streams).class' = SourceClass.discLike
      ↔ (classifyWebSource env filePath format streams).score ≤ -2)
    ∧ ((classifyWebSource env filePath format streams).class' = SourceClass.unknown
      ↔ (-2 < (classifyWebSource env filePath format streams).score
          ∧ (classifyWebSource env filePath format streams).score < 2))
    ∧ ((classifyWebSource env filePath format streams).isWebLike = true
      ↔ ((classifyWebSource env filePath format streams).class' = SourceClass.webLike
          ∨ (classifyWebSource env filePath format streams).class' = SourceClass.unknown)) := by
  unfold classifyWebSource
  split_ifs with h1 h2
  · refine ⟨iff_of_true rfl (by norm_num), iff_of_false (by simp) (by norm_num),
      iff_of_false (by simp) ?_, by simp [WebSourceDecision.isWebLike]⟩
    rintro ⟨-, h4⟩
    norm_num at h4
  · refine ⟨iff_of_false (by simp) (by norm_num), iff_of_true rfl (by norm_num),
      iff_of_false (by simp) ?_, by simp [WebSourceDecision.isWebLike]⟩
    rintro ⟨h3, -⟩
    norm_num at h3
  · have hs := finalizeDecision_spec (classifySignals filePath format streams)
    rw [hs.1]
    exact ⟨hs.2.1, hs.2.2.1, hs.2.2.2, isWebLike_iff _⟩

/-- C10: encoder argument construction returns an error if and only if the
probe result has no selected main video stream; with a main video stream it
returns an argument list and no error. -/
theorem transcodeArgs_error_iff_no_video (inputPath outputPath : String)
    (pr : ProbeResult) (isWebRipLike : Bool) :
    (∃ e, transcodeArgs inputPath outputPath pr isWebRipLike = Except.error e)
      ↔ pr.videoStream = none := by
  cases h : pr.videoStream <;> simp [transcodeArgs, h]

/-- C9: when the scanner re-admits a file whose existing job was Skipped or
Failed, the job keeps its identity (`ID`, `SourcePath`, `CreatedAt`) and its
untouched fields (`OutputPath`, `NewSize`), while `Status` becomes Pending
and `Reason`, `StartedAt`, `FinishedAt` are cleared. -/
theorem admitUpdate_preserves_identity (j : Job) (freshId : String) (now : Nat)
    (path : String) (size : Int) (pr : ProbeResult) (est : Int)
    (h : j.status = JobStatus.skipped ∨ j.status = JobStatus.failed) :
    (admitUpdate (some j) freshId now path size pr est).id = j.id
    ∧ (admitUpdate (some j) freshId now path size pr est).sourcePath = j.sourcePath
    ∧ (admitUpdate (some j) freshId now path size pr est).createdAt = j.createdAt
    ∧ (admitUpdate (some j) freshId now path size pr est).status = JobStatus.pending
    ∧ (admitUpdate (some j) freshId now path size pr est).reason = ""
    ∧ (admitUpdate (some j) freshId now path size pr est).startedAt = none
    ∧ (admitUpdate (some j) freshId now path size pr est).finishedAt = none
    ∧ (admitUpdate (some j) freshId now path size pr est).outputPath = j.outputPath
    ∧ (admitUpdate (some j) freshId now path size pr est).newSize = j.newSize := by
  rcases h with h | h <;> cases hv : pr.videoStream <;> simp [admitUpdate, h, hv]

/-- C9 witness: a concrete previously-skipped job keeps its identity on
re-admission. -/
theorem admitUpdate_preserves_identity_witness :
    let j := { sampleJob with status := JobStatus.skipped, reason := "size gate" }
    (admitUpdate (some j) "fresh" 9 "/lib/a.mkv" 4294967296 samplePR 1000).id = j.id
    ∧ (admitUpdate (some j) "fresh" 9 "/lib/a.mkv" 4294967296 samplePR 1000).sourcePath
        = j.sourcePath
    ∧ (admitUpdate (some j) "fresh" 9 "/lib/a.mkv" 4294967296 samplePR 1000).createdAt
        = j.createdAt
    ∧ (admitUpdate (some j) "fresh" 9 "/lib/a.mkv" 4294967296 samplePR 1000).status
        = JobStatus.pending
    ∧ (admitUpdate (some j) "fresh" 9 "/lib/a.mkv" 4294967296 samplePR 1000).reason = ""
    ∧ (admitUpdate (some j) "fresh" 9 "/lib/a.mkv" 4294967296 samplePR 1000).startedAt = none
    ∧ (admitUpdate (some j) "fresh" 9 "/lib/a.mkv" 4294967296 samplePR 1000).finishedAt = none
    ∧ (admitUpdate (some j) "fresh" 9 "/lib/a.mkv" 4294967296 samplePR 1000).outputPath
        = j.outputPath
    ∧ (admitUpdate (some j) "fresh" 9 "/lib/a.mkv" 4294967296 samplePR 1000).newSize
        = j.newSize :=
  admitUpdate_preserves_identity _ "fresh" 9 "/lib/a.mkv" 4294967296 samplePR 1000
    (Or.inl rfl)

/-- C1 counterexample: at a concrete job, `SaveJob` performs no rename at
all; it writes the record directly to the final `<job_id>.json` name, so the
claimed temp-file-plus-rename discipline is absent. -/
theorem saveJob_sample_writes_final_name_without_rename :
    ((saveJobEffects sampleJob "jobs").any FsOp.isRenameOp) = false
    ∧ FsOp.writeFile "jobs/j1.json" (marshalJob sampleJob)
        ∈ saveJobEffects sampleJob "jobs" := by
  constructor
  · rfl
  · show _ ∈ [FsOp.mkdirAll "jobs",
      FsOp.writeFile ("jobs" ++ "/" ++ sampleJob.id ++ ".json") (marshalJob sampleJob)]
    simp [sampleJob, newJob]

/-- C1 amended: `Save(job)` ensures the directory and then writes the
marshalled record directly to `<jobsDir>/<job_id>.json`; its trace contains
no rename and its only write targets the final name (so the write is not
performed via a temporary file and is not atomic against crashes). -/
theorem saveJob_direct_write (job : Job) (jobsDir : String) :
    ((saveJobEffects job jobsDir).any FsOp.isRenameOp) = false
    ∧ (saveJobEffects job jobsDir).filterMap FsOp.writePath?
        = [jobsDir ++ "/" ++ job.id ++ ".json"] := by
  exact ⟨rfl, rfl⟩

/-- Argument list of a successful construction, `[]` on error. -/
def argsOrNil : Except String (List String) → List String
  | .ok args => args
  | .error _ => []

set_option maxRecDepth 8192 in
/-- C5 counterexample: for a concrete 10-bit source the built filter chain
contains `format=nv12` and no `p010` at all, refuting the claim that the
surface format is coerced to `p010` when the source bit depth is ≥ 10. -/
theorem transcodeArgs_10bit_chain_is_nv12 :
    samplePR10.videoStream.map StreamInfo.bitDepth = some 10
    ∧ exceptOk (transcodeArgs "/lib/a.mkv" "/lib/a.av1-tmp.mkv" samplePR10 false) = true
    ∧ vfChainOf (argsOrNil (transcodeArgs "/lib/a.mkv" "/lib/a.av1-tmp.mkv" samplePR10 false))
        = some (joinFilterParts (vfParts false))
    ∧ containsStr (joinFilterParts (vfParts false)) "p010" = false
    ∧ containsStr (joinFilterParts (vfParts false)) "format=nv12" = true :=
  ⟨rfl, rfl, rfl, rfl, rfl⟩

set_option maxRecDepth 8192 in
/-- C5 amended: for every probe result with a main video stream, the built
argument list carries a filter chain that scales to even dimensions, sets
square pixel aspect ratio, coerces the surface pixel format to `nv12`
regardless of the source bit depth, and ends in a hardware upload; the
chain never mentions `p010`. -/
theorem transcodeArgs_chain_spec (inputPath outputPath : String)
    (pr : ProbeResult) (isWebRipLike : Bool) (vs : StreamInfo)
    (h : pr.videoStream = some vs) :
    ∃ args pre post, transcodeArgs inputPath outputPath pr isWebRipLike = .ok args
      ∧ args = pre ++ "-vf:v:0" :: joinFilterParts (vfParts isWebRipLike) :: post
      ∧ "scale_vaapi=w=ceil(iw/2)*2:h=ceil(ih/2)*2" ∈ vfParts isWebRipLike
      ∧ "setsar=1" ∈ vfParts isWebRipLike
      ∧ "format=nv12" ∈ vfParts isWebRipLike
      ∧ (vfParts isWebRipLike).getLast? = some "hwupload"
      ∧ containsStr (joinFilterParts (vfParts isWebRipLike)) "p010" = false := by
  refine ⟨transcodeArgsPre inputPath isWebRipLike vs.index
      ++ ["-vf:v:0", joinFilterParts (vfParts isWebRipLike)]
      ++ transcodeArgsPost outputPath (determineQuality vs.height) isWebRipLike,
    transcodeArgsPre inputPath isWebRipLike vs.index,
    transcodeArgsPost outputPath (determineQuality vs.height) isWebRipLike,
    by simp [transcodeArgs, h], by simp, ?_, ?_, ?_, ?_, ?_⟩ <;>
  cases isWebRipLike <;> first | rfl | simp [vfParts]

/-- C5 amended witness: the chain facts at a concrete 8-bit input. -/
theorem transcodeArgs_chain_spec_witness :
    ∃ args pre post,
      transcodeArgs "/lib/a.mkv" "/lib/a.av1-tmp.mkv" samplePR false = .ok args
      ∧ args = pre ++ "-vf:v:0" :: joinFilterParts (vfParts false) :: post
      ∧ "scale_vaapi=w=ceil(iw/2)*2:h=ceil(ih/2)*2" ∈ vfParts false
      ∧ "setsar=1" ∈ vfParts false
      ∧ "format=nv12" ∈ vfParts false
      ∧ (vfParts false).getLast? = some "hwupload"
      ∧ containsStr (joinFilterParts (vfParts false)) "p010" = false :=
  transcodeArgs_chain_spec "/lib/a.mkv" "/lib/a.av1-tmp.mkv" samplePR false
    sampleStream rfl

/-- C7 counterexample: a stream whose `width` arrives as the numeric string
"1920" makes the whole stream parse fail (plain `int` fields accept only
JSON numbers), even though the same shape is accepted for the bit-depth
field; so not every numeric stream field tolerates numeric strings. -/
theorem parseStreamNums_string_width_fails :
    exceptOk (parseStreamNums
      { index := some (.jnum 0), width := some (.jstr "1920"),
        height := some (.jnum 1080), bitsPerRawSample := some (.jstr "10") }) = false
    ∧ flexibleIntUnmarshal (.jstr "1920") = .ok 1920 :=
  ⟨rfl, rfl⟩

/-- C7 amended: only the bit-depth field (`bits_per_raw_sample`) goes
through the flexible parser, which accepts JSON numbers, numeric strings
and null/absent (as zero); `index`, `width` and `height` are plain `int`
fields that accept numbers and null/absent only, and a numeric string in
one of them fails the whole stream parse. -/
theorem flexibleInt_only_for_bitDepth (raw : RawStream) :
    flexibleIntUnmarshal JVal.jnull = .ok 0
    ∧ (∀ n : Int, flexibleIntUnmarshal (.jnum n) = .ok n)
    ∧ (∀ s n, s ≠ "" → atoi s = some n → flexibleIntUnmarshal (.jstr s) = .ok n)
    ∧ parseStreamNums { index := none, width := none, height := none, bitsPerRawSample := none }
        = .ok { index := 0, width := 0, height := 0, bitDepth := 0 }
    ∧ (∀ s, raw.width = some (.jstr s) → exceptOk (parseStreamNums raw) = false) := by
  refine ⟨rfl, fun n => rfl, fun s n hs ha => ?_, rfl, fun s hw => ?_⟩
  · simp [flexibleIntUnmarshal, hs, ha]
  · unfold parseStreamNums
    rw [hw]
    cases hidx : decodeField goIntUnmarshal raw.index with
    | error e => rfl
    | ok i => rfl

/-- Sample raw stream whose width arrives as a numeric string. -/
def rawStreamStrWidth : RawStream :=
  { index := some (.jnum 0)
    width := some (.jstr "1920")
    height := none
    bitsPerRawSample := none }

/-- C7 amended witness: the flexible parser accepts a concrete numeric
string, and a concrete stream with a stringly-typed width fails to parse. -/
theorem flexibleInt_only_for_bitDepth_witness :
    flexibleIntUnmarshal (.jstr "1080") = .ok 1080
    ∧ exceptOk (parseStreamNums rawStreamStrWidth) = false :=
  ⟨(flexibleInt_only_for_bitDepth rawStreamStrWidth).2.2.1 "1080" 1080
      (by decide) rfl,
    (flexibleInt_only_for_bitDepth rawStreamStrWidth).2.2.2.2 "1920" rfl⟩

/-- C3: the drain loop's handler for a failed re-probe produces a record
with terminal status Failed whose `finished_at` is still unset, violating
the claimed invariant that `finished_at` is set iff the status is terminal
(every `ProcessJob` terminal transition does set it). -/
theorem drainProbeFail_breaks_finishedAt_invariant :
    (drainProbeFail sampleJob "exit status 1").1.status = JobStatus.failed
    ∧ ((drainProbeFail sampleJob "exit status 1").1.status.isTerminal = true)
    ∧ (drainProbeFail sampleJob "exit status 1").1.finishedAt = none :=
  ⟨rfl, rfl, rfl⟩

/-- Scanner state holding one pending job from a prior pass. -/
def scanStateC4 : ScanState :=
  { existingJobs := [sampleJob], newJobs := [], effects := [] }

/-- Scan oracle under which the pending job's file passes admission again. -/
def scanEnvC4 : ScanFileEnv :=
  { skipMarkerExists := false
    size := 4294967296
    probe := .ok samplePR
    freshId := "unused"
    now := 3
    est := 1000
    saveOk := true }

/-- Formerly-Skipped job for the same path, as left by a prior size-gate
rejection. -/
def sampleJobSkippedC4 : Job :=
  { sampleJob with status := JobStatus.skipped, reason := "size gate" }

/-- Scanner state holding one formerly-Skipped job from a prior pass. -/
def scanStateC4Skipped : ScanState :=
  { existingJobs := [sampleJobSkippedC4], newJobs := [], effects := [] }

set_option maxRecDepth 8192 in
/-- C4 counterexample: any re-admitted job with a non-Success record is fed
twice in one drain. A job that is already Pending in the store and whose
file passes admission again is appended to the new-jobs list while
remaining in the loaded list, so the drain selection contains it twice; the
same happens to a formerly-Skipped (or Failed) job, because the scanner
resets it to Pending in place through the shared pointer before appending
it to the new-jobs list. -/
theorem scan_readmitted_pending_job_fed_twice :
    sampleJob.status = JobStatus.pending
    ∧ feedCount
        (selectPending
          (scanFileStep scanStateC4 "/lib/a.mkv" 2147483648 scanEnvC4).existingJobs
          (scanFileStep scanStateC4 "/lib/a.mkv" 2147483648 scanEnvC4).newJobs)
        "j1" = 2
    ∧ sampleJobSkippedC4.status = JobStatus.skipped
    ∧ feedCount
        (selectPending
          (scanFileStep scanStateC4Skipped "/lib/a.mkv" 2147483648 scanEnvC4).existingJobs
          (scanFileStep scanStateC4Skipped "/lib/a.mkv" 2147483648 scanEnvC4).newJobs)
        "j1" = 2 :=
  ⟨rfl, rfl, rfl, rfl⟩

/-- C4 amended: the drain selection is exactly the Pending jobs of the
loaded list followed by the Pending jobs of the newly admitted list; every
Pending job is selected, and a job can be fed twice only when its ID occurs
twice across the two lists. That duplication arises whenever a job with an
existing non-Success record is re-admitted in the same pass: it stays in
the loaded list (Skipped/Failed records are reset to Pending in place
through the shared pointer) and is appended to the new-jobs list too. -/
theorem selectPending_spec (ex nw : List Job) :
    selectPending ex nw = (ex ++ nw).filter isPendingJob
    ∧ (∀ j ∈ ex ++ nw, isPendingJob j = true → j ∈ selectPending ex nw)
    ∧ ∀ jobId, 2 ≤ feedCount (selectPending ex nw) jobId →
        2 ≤ ((ex ++ nw).filter (fun j => j.id == jobId)).length := by
  have hfa : selectPending ex nw = (ex ++ nw).filter isPendingJob := by
    simp [selectPending, List.filter_append]
  refine ⟨hfa, ?_, ?_⟩
  · intro j hj hp
    rw [hfa, List.mem_filter]
    exact ⟨hj, hp⟩
  · intro jobId h2
    rw [hfa] at h2
    refine le_trans h2 ?_
    unfold feedCount
    exact ((List.filter_sublist _).filter _).length_le

/-- C4 amended witness: a double feed at a concrete duplicated pending job
implies the double occurrence across the two lists. -/
theorem selectPending_spec_witness :
    2 ≤ (([sampleJob] ++ [sampleJob]).filter (fun j => j.id == "j1")).length :=
  (selectPending_spec [sampleJob] [sampleJob]).2.2 "j1" (by decide)

/-- Sample executor environment whose stability check reports a changing
file. -/
def sampleEnvUnstable : ExecEnv := { sampleEnvOk with stable := .ok false }

/-- Sample executor environment whose output is too large for the gate. -/
def sampleEnvGate : ExecEnv := { sampleEnvOk with outputStat := .ok 4100000000 }

set_option maxRecDepth 8192 in
/-- C2 counterexample: on the argument-construction failure path the
executor marks the job Failed with a reason but writes no why sidecar at
all, so not every Failed/Skipped transition produces one. -/
theorem processJob_argfail_writes_no_why :
    (processJob sampleJob samplePRNoVideo sampleCfg sampleEnvOk).job.status = JobStatus.failed
    ∧ (processJob sampleJob samplePRNoVideo sampleCfg sampleEnvOk).job.reason
        = "failed to build ffmpeg args: no video stream found in probe result"
    ∧ ((processJob sampleJob samplePRNoVideo sampleCfg sampleEnvOk).effects.any Eff.isWriteWhy)
        = false :=
  ⟨rfl, rfl, rfl⟩

/-- Why-sidecar consistency of one executor result: every why write names
the job's sidecar path, carries the job's final Reason, and happens only
with the job left Failed or Skipped. -/
def whyWritesConsistent (sourcePath : String) (R : ProcResult) : Prop :=
  ∀ p r, Eff.writeWhy p r ∈ R.effects →
    p = whyPathOf sourcePath ∧ r = R.job.reason
    ∧ (R.job.status = JobStatus.skipped ∨ R.job.status = JobStatus.failed)

/-- C2 amended: whenever the executor writes a why sidecar (it does so on
the stability-skip, encoder-failure and size-gate paths), the contents
equal the job's Reason at that moment and the job is Skipped or Failed; but
not every Failed/Skipped transition writes one — the argument-build,
output-stat, replace-failure and verify-failure paths write none, and the
drain loop's re-probe-failure path writes none either. -/
theorem processJob_why_spec (job : Job) (pr : ProbeResult)
    (cfg : TranscodeConfig) (env : ExecEnv) :
    whyWritesConsistent job.sourcePath (processJob job pr cfg env)
    ∧ ∀ (j : Job) (e : String), ((drainProbeFail j e).2.any Eff.isWriteWhy) = false := by
  constructor
  · intro p r h
    unfold processJob at h ⊢
    cases hv : pr.videoStream with
    | none =>
        simp only [transcodeArgs, hv] at h ⊢
        repeat' split at h
        all_goals simp_all
    | some vs =>
        simp only [transcodeArgs, hv] at h ⊢
        repeat' split at h
        all_goals simp_all
  · intro j e
    rfl

set_option maxRecDepth 8192 in
/-- C2 amended witness: on the concrete stability-skip path a why write is
present, and the theorem yields that its contents equal the job's Reason
with the job Skipped. -/
theorem processJob_why_spec_witness :
    "/lib/a.av1qsvd-why.txt" = whyPathOf sampleJob.sourcePath
    ∧ "file still copying"
        = (processJob sampleJob samplePR sampleCfg sampleEnvUnstable).job.reason
    ∧ ((processJob sampleJob samplePR sampleCfg sampleEnvUnstable).job.status
          = JobStatus.skipped
        ∨ (processJob sampleJob samplePR sampleCfg sampleEnvUnstable).job.status
          = JobStatus.failed) :=
  (processJob_why_spec sampleJob samplePR sampleCfg sampleEnvUnstable).1
    "/lib/a.av1qsvd-why.txt" "file still copying" (by decide)

/-- C6: the size gate rejects exactly when the output exceeds
original × ratio (an output exactly at the threshold is accepted), and on
rejection the executor marks the job Skipped with a reason citing both
sizes and the threshold, creates the `<basename>.av1qsvd-skip` sidecar,
deletes the temporary output, and persists the record. -/
theorem sizeGate_spec :
    (∀ (origBytes newBytes : Int) (r : ℚ),
      checkSizeGate origBytes newBytes r = false ↔ (origBytes : ℚ) * r < (newBytes : ℚ))
    ∧ ∀ (job : Job) (pr : ProbeResult) (cfg : TranscodeConfig) (env : ExecEnv)
        (vs : StreamInfo) (outBytes : Int),
        env.stable = Except.ok true → env.saveRunningOk = true →
        pr.videoStream = some vs → env.transcode = Except.ok () →
        env.outputStat = Except.ok outBytes →
        checkSizeGate job.originalSize outBytes cfg.maxSizeRatioQ = false →
        (processJob job pr cfg env).job.status = JobStatus.skipped
        ∧ (processJob job pr cfg env).job.reason
            = sizeGateReason outBytes job.originalSize cfg.maxSizeRatioQ
        ∧ (processJob job pr cfg env).job.newSize = outBytes
        ∧ Eff.writeSkip (trimExt job.sourcePath ++ ".av1qsvd-skip")
            ∈ (processJob job pr cfg env).effects
        ∧ Eff.removeOut ((processJob job pr cfg env).job.outputPath)
            ∈ (processJob job pr cfg env).effects
        ∧ Eff.writeWhy (whyPathOf job.sourcePath)
            (sizeGateReason outBytes job.originalSize cfg.maxSizeRatioQ)
            ∈ (processJob job pr cfg env).effects
        ∧ Eff.saveRecord (processJob job pr cfg env).job
            ∈ (processJob job pr cfg env).effects := by
  constructor
  · intro o n r
    unfold checkSizeGate
    simp [not_le]
  · intro job pr cfg env vs outBytes hst hsv hpv htc hos hgate
    simp [processJob, hst, hsv, hpv, htc, hos, hgate, transcodeArgs]

/-- C6 witness: a concrete 4096.0 MB original with a 3910.1 MB output under
ratio 0.90 is rejected, with the full effect set. -/
theorem sizeGate_spec_witness :
    (checkSizeGate 4294967296 3865470566 (9/10) = false
      ↔ (4294967296 : ℚ) * (9/10) < (3865470566 : ℚ))
    ∧ ((processJob sampleJob samplePR sampleCfg sampleEnvGate).job.status = JobStatus.skipped
      ∧ (processJob sampleJob samplePR sampleCfg sampleEnvGate).job.reason
          = sizeGateReason 4100000000 sampleJob.originalSize sampleCfg.maxSizeRatioQ
      ∧ (processJob sampleJob samplePR sampleCfg sampleEnvGate).job.newSize = 4100000000
      ∧ Eff.writeSkip (trimExt sampleJob.sourcePath ++ ".av1qsvd-skip")
          ∈ (processJob sampleJob samplePR sampleCfg sampleEnvGate).effects
      ∧ Eff.removeOut ((processJob sampleJob samplePR sampleCfg sampleEnvGate).job.outputPath)
          ∈ (processJob sampleJob samplePR sampleCfg sampleEnvGate).effects
      ∧ Eff.writeWhy (whyPathOf sampleJob.sourcePath)
          (sizeGateReason 4100000000 sampleJob.originalSize sampleCfg.maxSizeRatioQ)
          ∈ (processJob sampleJob samplePR sampleCfg sampleEnvGate).effects
      ∧ Eff.saveRecord (processJob sampleJob samplePR sampleCfg sampleEnvGate).job
          ∈ (processJob sampleJob samplePR sampleCfg sampleEnvGate).effects) :=
  ⟨sizeGate_spec.1 4294967296 3865470566 (9/10),
    sizeGate_spec.2 sampleJob samplePR sampleCfg sampleEnvGate sampleStream 4100000000
      rfl rfl rfl rfl rfl
      (by simp [checkSizeGate, sampleJob, newJob, sampleCfg]; norm_num)⟩

end AV1
